import Mathlib

/-!
Verification of `fprime/fbuild/target.py` (build-target registry and dispatch).

The Python module defines a `Target` class hierarchy with a process-wide
registry (`Target.ALL_TARGETS`), exact-match lookup (`Target.get_target`),
display rendering (`Target.config_string`), a flag-union query
(`Target.get_all_possible_flags`), and three executing subclasses
(`CompositeTarget`, `BuildSystemTarget`, `DelegatorTarget`).

The embedding below models each of these directly from the source:
  * `TargetScope`, `TargetBase` mirror the enum / data attributes;
  * `registerTarget` is the registry side effect of `Target.__init__`
    (including the BOTH-scope delegator synthesis of lines 89-95);
  * `config_string`, `get_all_possible_flags`, `get_target` mirror the
    static / class methods;
  * `compositeExecute`, `buildSystemExecute`, `delegatorExecute` mirror the
    three `execute` overrides, with the external builder / delegate / child
    behaviour left as a parameter and the calls made to it recorded.
-/

namespace FPrimeTarget

/-- Mirrors `TargetScope` (target.py lines 16-26): `GLOBAL = 0x1`,
`LOCAL = 0x2`, `BOTH = GLOBAL | LOCAL`. -/
inductive TargetScope where
  | GLOBAL
  | LOCAL
  | BOTH
deriving DecidableEq

/-- Modelled from the spec: `BuildType` lives in `fprime/fbuild/types.py`,
which is not part of the sources; the spec describes it as "an applicability
filter over build configurations — normal vs testing". Only the two
constructor names referenced by `target.py` are needed. -/
inductive BuildType where
  | BUILD_NORMAL
  | BUILD_TESTING
deriving DecidableEq

/-- The data attributes set by `Target.__init__` (target.py lines 79-85). -/
structure TargetBase where
  mnemonic : String
  desc : String
  scope : TargetScope
  build_type : BuildType
  flags : Finset String
deriving DecidableEq

/-- A registry entry: either a directly registered target or a
`DelegatorTarget` carrying its delegate (the delegate of the entries
synthesized for a BOTH-scope target is the original, unregistered
instance). -/
inductive RegEntry where
  | plain (t : TargetBase)
  | delegator (t : TargetBase) (delegate : TargetBase)
deriving DecidableEq

/-- The `TargetBase` data of a registry entry. -/
def RegEntry.base : RegEntry → TargetBase
  | .plain t => t
  | .delegator t _ => t

/-- The process-wide registry `Target.ALL_TARGETS`, in registration order. -/
abbrev Registry := List RegEntry

/-- The attribute assignments of `Target.__init__` (lines 79-85):
`build_type` defaults to `BuildType.BUILD_NORMAL` when `None`, `flags`
defaults to the empty set when `None`. -/
def mkTargetBase (mnemonic desc : String) (scope : TargetScope)
    (build_type : Option BuildType) (flags : Option (Finset String)) :
    TargetBase :=
  { mnemonic := mnemonic
    desc := desc
    scope := scope
    build_type := build_type.getD BuildType.BUILD_NORMAL
    flags := flags.getD ∅ }

/-- The flag set handed to the GLOBAL delegator in the BOTH branch
(lines 93-94): `new_flags = {"-all"}; new_flags = new_flags.union(flags) if
flags else new_flags`. A `None` or empty `flags` is falsy in Python. -/
def globalFlags : Option (Finset String) → Finset String
  | some f => if f = ∅ then {"-all"} else {"-all"} ∪ f
  | none => {"-all"}

/-- The registry side effect of `Target.__init__` (lines 87-95): a target
whose scope is not BOTH is appended to `ALL_TARGETS`; a BOTH-scope target is
not appended, and instead a LOCAL `DelegatorTarget` and then a GLOBAL
`DelegatorTarget` (with `globalFlags`) are constructed, each of which
appends itself. Returns the constructed instance and the new registry. -/
def registerTarget (reg : Registry) (mnemonic desc : String)
    (scope : TargetScope) (build_type : Option BuildType)
    (flags : Option (Finset String)) : TargetBase × Registry :=
  let self := mkTargetBase mnemonic desc scope build_type flags
  if scope ≠ TargetScope.BOTH then
    (self, reg ++ [RegEntry.plain self])
  else
    let localDel :=
      mkTargetBase mnemonic desc TargetScope.LOCAL build_type flags
    let globalDel :=
      mkTargetBase mnemonic desc TargetScope.GLOBAL build_type
        (some (globalFlags flags))
    (self, reg ++ [RegEntry.delegator localDel self,
                   RegEntry.delegator globalDel self])

/-- `Target.get_all_targets` (lines 127-134): the registration-ordered
list. -/
def get_all_targets (reg : Registry) : Registry := reg

/-- Python's `" ".join` on a list of strings. -/
def joinSpace : List String → String
  | [] => ""
  | [s] => s
  | s :: rest => s ++ " " ++ joinSpace rest

/-- `Target.config_string` (lines 102-114), on a given iteration order of
the flag set: each flag is rendered `--flag`, the renderings are joined by
single spaces, and a leading space is added only when the joined string is
non-empty. -/
def config_string (mnemonic : String) (flags : List String) : String :=
  let flag_string := joinSpace (flags.map (fun flag => "--" ++ flag))
  let flag_string := if flag_string = "" then "" else " " ++ flag_string
  mnemonic ++ flag_string

/-- A fixed iteration order for a Python set of strings (Python guarantees
no particular order; we canonically sort). -/
def flagsSorted (flags : Finset String) : List String :=
  flags.sort (· ≤ ·)

/-- `Target.config_string` applied to a flag set. -/
def config_string_fs (mnemonic : String) (flags : Finset String) : String :=
  config_string mnemonic (flagsSorted flags)

/-- `Target.get_all_possible_flags` (lines 116-125):
`functools.reduce(lambda agg, item: agg.union(item.flags), targets, set())`. -/
def get_all_possible_flags (reg : Registry) : Finset String :=
  (get_all_targets reg).foldl (fun agg item => agg ∪ item.base.flags) ∅

/-- The `matching` list built by `Target.get_target` (lines 150-153). -/
def matchingTargets (reg : Registry) (mnemonic : String)
    (flags : Finset String) : List RegEntry :=
  (get_all_targets reg).filter
    (fun t => decide (t.base.mnemonic = mnemonic ∧ flags = t.base.flags))

/-- Outcome of `Target.get_target`: a unique match, a
`NoSuchTargetException`, or the fatal `assert len(matching) == 1`. -/
inductive LookupResult where
  | found (e : RegEntry)
  | noSuchTarget (msg : String)
  | assertFailed (msg : String)
deriving DecidableEq

/-- True exactly on a `noSuchTarget` outcome. -/
def LookupResult.isNoSuch : LookupResult → Bool
  | .noSuchTarget _ => true
  | _ => false

/-- `Target.get_target` (lines 136-159): filter the registry by exact
mnemonic and flag-set equality; raise `NoSuchTargetException` with the
`config_string` rendering when nothing matches; assert that the match is
unique; return it. -/
def get_target (reg : Registry) (mnemonic : String) (flags : Finset String) :
    LookupResult :=
  match matchingTargets reg mnemonic flags with
  | [] => .noSuchTarget
      ("Could not find target \x27" ++ config_string_fs mnemonic flags ++ "\x27")
  | [t] => .found t
  | _ :: _ :: _ => .assertFailed "Conflicting targets specified in code"

end FPrimeTarget

namespace FPrimeTarget

/-- The claim: constructing a `Target` with `build_type=None` sets
`build_type` to exactly `BuildType.BUILD_NORMAL`, and with `flags=None`
sets the flag set to `∅`, so the identity is `(mnemonic, ∅)`. -/
theorem C10_construction_defaults (m d : String) (s : TargetScope) :
    (mkTargetBase m d s none none).build_type = BuildType.BUILD_NORMAL ∧
    (mkTargetBase m d s none none).flags = (∅ : Finset String) ∧
    ((mkTargetBase m d s none none).mnemonic,
     (mkTargetBase m d s none none).flags) = (m, (∅ : Finset String)) := by
  refine ⟨rfl, rfl, rfl⟩

end FPrimeTarget

namespace FPrimeTarget

/-- `DelegatorTarget.execute` (target.py lines 210-219): save
`old_scope = delegate.scope`, set `delegate.scope = self.scope` inside a
`try`, invoke the delegate, and in the `finally` restore
`delegate.scope = old_scope` on every exit path. The delegate's behaviour is
a function of the scope it observes, returning either a failure or a value
together with whatever its own execution left in its scope field (the
`finally` overwrites that). Returns the delegator's result and the
delegate's final scope. -/
def delegatorExecute {E A : Type} (selfScope delegateScope : TargetScope)
    (delegateExec : TargetScope → Except E (A × TargetScope)) :
    Except E A × TargetScope :=
  let old_scope := delegateScope
  match delegateExec selfScope with
  | .ok (v, _) => (.ok v, old_scope)
  | .error e => (.error e, old_scope)

/-- `BuildSystemTarget.execute` (target.py lines 183-196): the effective
sub-target is `self.build_target` unless it is empty and the scope is not
LOCAL, in which case it is `"all"`; the builder is then called once with
`(build_target, context, scope == GLOBAL, args)`. Returns the list of calls
made to `builder.execute_build_target`. -/
def buildSystemExecute {Ctx Args : Type} (self_build_target : String)
    (scope : TargetScope) (context : Ctx) (args : Args) :
    List (String × Ctx × Bool × Args) :=
  let build_target :=
    if self_build_target ≠ "" ∨ scope = TargetScope.LOCAL
    then self_build_target else "all"
  [(build_target, context, decide (scope = TargetScope.GLOBAL), args)]

/-- `CompositeTarget.execute` (target.py lines 170-173): `for child in
self.targets: child.execute(*args, **kwargs)` — each child is invoked in
list order with the same arguments, and a raised failure aborts the loop and
propagates. Returns the trace of `(child, arguments)` invocations and the
propagated failure, if any. -/
def compositeExecute {A C E B : Type} (targets : List A)
    (run : A → C → Except E B) (ctx : C) : List (A × C) × Option E :=
  match targets with
  | [] => ([], none)
  | child :: rest =>
    match run child ctx with
    | .error e => ([(child, ctx)], some e)
    | .ok _ =>
      let r := compositeExecute rest run ctx
      ((child, ctx) :: r.1, r.2)

/-- Helper: a composite run in which every child succeeds invokes every
child in order and reports no failure. -/
theorem compositeExecute_ok {A C E B : Type} (run : A → C → Except E B)
    (ctx : C) :
    ∀ targets : List A, (∀ c ∈ targets, ∃ v, run c ctx = Except.ok v) →
      compositeExecute targets run ctx
        = (targets.map (fun c => (c, ctx)), none) := by
  intro targets
  induction targets with
  | nil => intro _; rfl
  | cons c rest ih =>
    intro h
    obtain ⟨v, hv⟩ := h c (by simp)
    have hrest := ih (fun b hb => h b (by simp [hb]))
    simp [compositeExecute, hv, hrest]

/-- Helper: the first failing child aborts the loop, the children after it
are never invoked, and its failure is the composite's result. -/
theorem compositeExecute_failfast {A C E B : Type} (run : A → C → Except E B)
    (ctx : C) :
    ∀ (pre : List A) (c : A) (post : List A) (e : E),
      (∀ b ∈ pre, ∃ v, run b ctx = Except.ok v) →
      run c ctx = Except.error e →
      compositeExecute (pre ++ c :: post) run ctx
        = ((pre ++ [c]).map (fun x => (x, ctx)), some e) := by
  intro pre
  induction pre with
  | nil =>
    intro c post e _ hc
    simp [compositeExecute, hc]
  | cons b pre ih =>
    intro c post e hpre hc
    obtain ⟨v, hv⟩ := hpre b (by simp)
    have hrec := ih c post e (fun x hx => hpre x (by simp [hx])) hc
    simp [compositeExecute, hv, hrec]

/-- The claim: `DelegatorTarget.execute` restores the delegate's scope to
its pre-call value on every exit path — after success as well as after a
failure — while the delegate itself is invoked with the delegator's scope,
and the delegate's result (value or failure) is passed through. -/
theorem C3_delegator_scope_restoration {E A : Type}
    (selfScope delegateScope : TargetScope)
    (delegateExec : TargetScope → Except E (A × TargetScope)) :
    (delegatorExecute selfScope delegateScope delegateExec).2
      = delegateScope ∧
    (∀ v s, delegateExec selfScope = Except.ok (v, s) →
      (delegatorExecute selfScope delegateScope delegateExec).1
        = Except.ok v) ∧
    (∀ e, delegateExec selfScope = Except.error e →
      (delegatorExecute selfScope delegateScope delegateExec).1
        = Except.error e) := by
  refine ⟨?_, ?_, ?_⟩
  · cases h : delegateExec selfScope with
    | ok p => cases p with | mk v s => simp [delegatorExecute, h]
    | error e => simp [delegatorExecute, h]
  · intro v s h
    simp [delegatorExecute, h]
  · intro e h
    simp [delegatorExecute, h]

/-- Witness for `C3_delegator_scope_restoration` at a GLOBAL delegator over
a LOCAL delegate, one succeeding and one failing delegate. -/
theorem C3_witness :
    (delegatorExecute TargetScope.GLOBAL TargetScope.LOCAL
      (fun s => (Except.ok (0, s) : Except Unit (Nat × TargetScope)))).1
      = Except.ok 0 ∧
    (delegatorExecute TargetScope.GLOBAL TargetScope.LOCAL
      (fun _ => (Except.error () : Except Unit (Nat × TargetScope)))).1
      = Except.error () :=
  ⟨(C3_delegator_scope_restoration TargetScope.GLOBAL TargetScope.LOCAL
      _).2.1 0 TargetScope.GLOBAL rfl,
   (C3_delegator_scope_restoration TargetScope.GLOBAL TargetScope.LOCAL
      _).2.2 () rfl⟩

/-- The claim: `BuildSystemTarget.execute` calls the builder exactly once;
the effective sub-target is `build_target` itself when non-empty, `""` when
empty with LOCAL scope, `"all"` when empty with GLOBAL scope; and the
is-global argument equals `scope = GLOBAL`. -/
theorem C4_build_system_substitution {Ctx Args : Type}
    (bt : String) (scope : TargetScope) (ctx : Ctx) (args : Args) :
    (buildSystemExecute bt scope ctx args).length = 1 ∧
    (bt ≠ "" → buildSystemExecute bt scope ctx args
      = [(bt, ctx, decide (scope = TargetScope.GLOBAL), args)]) ∧
    buildSystemExecute "" TargetScope.LOCAL ctx args
      = [("", ctx, false, args)] ∧
    buildSystemExecute "" TargetScope.GLOBAL ctx args
      = [("all", ctx, true, args)] := by
  refine ⟨?_, ?_, rfl, rfl⟩
  · simp [buildSystemExecute]
  · intro h
    simp [buildSystemExecute, h]

/-- Witness for `C4_build_system_substitution`: a non-empty sub-target name
is used as-is regardless of scope. -/
theorem C4_witness :
    buildSystemExecute "custom" TargetScope.LOCAL (7 : Nat) (3 : Nat)
      = [("custom", 7, false, 3)] ∧
    buildSystemExecute "custom" TargetScope.GLOBAL (7 : Nat) (3 : Nat)
      = [("custom", 7, true, 3)] :=
  ⟨(C4_build_system_substitution "custom" TargetScope.LOCAL 7 3).2.1
      (by decide),
   (C4_build_system_substitution "custom" TargetScope.GLOBAL 7 3).2.1
      (by decide)⟩

/-- The claim: `CompositeTarget.execute` invokes each child in list order
with the identical argument tuple; if every child succeeds all children are
invoked with no failure, and if a child fails the later children are never
invoked and that child's failure is the composite's result. -/
theorem C5_composite_fanout {A C E B : Type} (targets : List A)
    (run : A → C → Except E B) (ctx : C) :
    ((∀ c ∈ targets, ∃ v, run c ctx = Except.ok v) →
      compositeExecute targets run ctx
        = (targets.map (fun c => (c, ctx)), none)) ∧
    (∀ pre c post e, targets = pre ++ c :: post →
      (∀ b ∈ pre, ∃ v, run b ctx = Except.ok v) →
      run c ctx = Except.error e →
      compositeExecute targets run ctx
        = ((pre ++ [c]).map (fun x => (x, ctx)), some e)) := by
  constructor
  · exact compositeExecute_ok run ctx targets
  · intro pre c post e ht hpre hc
    subst ht
    exact compositeExecute_failfast run ctx pre c post e hpre hc

/-- Witness for `C5_composite_fanout`: with children `[0, 1, 2]` where `1`
fails, children `0` and `1` run in order, `2` never runs, and the failure
propagates; with children `[0, 2]` all succeed. -/
theorem C5_witness :
    compositeExecute [0, 1, 2]
      (fun c (_ : Unit) =>
        if c = 1 then (Except.error "boom" : Except String Nat)
        else Except.ok c) ()
      = ([(0, ()), (1, ())], some "boom") ∧
    compositeExecute [0, 2]
      (fun c (_ : Unit) =>
        if c = 1 then (Except.error "boom" : Except String Nat)
        else Except.ok c) ()
      = ([(0, ()), (2, ())], none) :=
  ⟨(C5_composite_fanout [0, 1, 2] _ ()).2 [0] 1 [2] "boom" rfl
      (by
        intro b hb
        simp only [List.mem_singleton] at hb
        subst hb
        exact ⟨0, rfl⟩)
      rfl,
   (C5_composite_fanout [0, 2] _ ()).1
      (by
        intro c hc
        simp only [List.mem_cons, List.not_mem_nil, or_false] at hc
        rcases hc with rfl | rfl
        · exact ⟨0, rfl⟩
        · exact ⟨2, rfl⟩)⟩

end FPrimeTarget

namespace FPrimeTarget

/-- The `(mnemonic, flags)` identity of a registry entry (docstring of
`Target.__init__`: "mnemonic + flags must be" unique). -/
def entryIdentity (e : RegEntry) : String × Finset String :=
  (e.base.mnemonic, e.base.flags)

/-- The claim: when the registry holds exactly one target with mnemonic `m`
and flags `F`, `get_target` returns it; when it holds none, `get_target`
fails with a `NoSuchTargetException` whose message contains the
`config_string` rendering of `(m, F)`. -/
theorem C2_lookup_correctness (reg : Registry) (m : String)
    (F : Finset String) :
    (∀ e, matchingTargets reg m F = [e] →
      get_target reg m F = LookupResult.found e ∧
      e ∈ get_all_targets reg ∧ e.base.mnemonic = m ∧ e.base.flags = F) ∧
    (matchingTargets reg m F = [] →
      get_target reg m F = LookupResult.noSuchTarget
        ("Could not find target \x27" ++ config_string_fs m F ++ "\x27")) := by
  constructor
  · intro e he
    have hmem : e ∈ matchingTargets reg m F := by
      rw [he]; exact List.mem_singleton_self e
    rw [matchingTargets, List.mem_filter] at hmem
    have hp := of_decide_eq_true hmem.2
    exact ⟨by simp [get_target, he], hmem.1, hp.1, hp.2.symm⟩
  · intro h
    simp [get_target, h]

/-- Witness for `C2_lookup_correctness` on a one-target registry: the
registered identity is found, an unregistered identity reports
`NoSuchTargetException`. -/
theorem C2_witness :
    get_target
      ((registerTarget [] "build" "d" TargetScope.LOCAL none
          (some {"unit"})).2) "build" {"unit"}
      = LookupResult.found
          (RegEntry.plain
            (mkTargetBase "build" "d" TargetScope.LOCAL none
              (some {"unit"}))) ∧
    get_target
      ((registerTarget [] "build" "d" TargetScope.LOCAL none
          (some {"unit"})).2) "build" {"nope"}
      = LookupResult.noSuchTarget
          ("Could not find target \x27"
            ++ config_string_fs "build" {"nope"} ++ "\x27") :=
  ⟨((C2_lookup_correctness
      ((registerTarget [] "build" "d" TargetScope.LOCAL none
          (some {"unit"})).2) "build" {"unit"}).1
      (RegEntry.plain
        (mkTargetBase "build" "d" TargetScope.LOCAL none (some {"unit"})))
      (by decide)).1,
   (C2_lookup_correctness
      ((registerTarget [] "build" "d" TargetScope.LOCAL none
          (some {"unit"})).2) "build" {"nope"}).2 (by decide)⟩

/-- The claim: construction never rejects a duplicate `(mnemonic, flags)`
identity — both duplicates are appended to the registry — and the
violation surfaces only at lookup time as the fatal
`assert len(matching) == 1`, which is unreachable whenever registered
identities are pairwise distinct. -/
theorem C6_duplicate_identity :
    (∀ (reg : Registry) (m d1 d2 : String) (s1 s2 : TargetScope)
        (bt1 bt2 : Option BuildType) (F : Finset String),
      s1 ≠ TargetScope.BOTH → s2 ≠ TargetScope.BOTH →
      (registerTarget ((registerTarget reg m d1 s1 bt1 (some F)).2)
          m d2 s2 bt2 (some F)).2
        = reg ++ [RegEntry.plain (mkTargetBase m d1 s1 bt1 (some F)),
                  RegEntry.plain (mkTargetBase m d2 s2 bt2 (some F))] ∧
      entryIdentity
        (RegEntry.plain (mkTargetBase m d1 s1 bt1 (some F))) = (m, F) ∧
      entryIdentity
        (RegEntry.plain (mkTargetBase m d2 s2 bt2 (some F))) = (m, F)) ∧
    (∀ (reg : Registry) (m : String) (F : Finset String) a b l,
      matchingTargets reg m F = a :: b :: l →
      get_target reg m F
        = LookupResult.assertFailed "Conflicting targets specified in code") ∧
    (∀ (reg : Registry) (m : String) (F : Finset String),
      (get_all_targets reg).Pairwise
        (fun a b => entryIdentity a ≠ entryIdentity b) →
      ∀ msg, get_target reg m F ≠ LookupResult.assertFailed msg) := by
  refine ⟨?_, ?_, ?_⟩
  · intro reg m d1 d2 s1 s2 bt1 bt2 F h1 h2
    refine ⟨?_, rfl, rfl⟩
    simp [registerTarget, h1, h2]
  · intro reg m F a b l h
    simp [get_target, h]
  · intro reg m F hp msg hcontra
    cases h : matchingTargets reg m F with
    | nil => simp [get_target, h] at hcontra
    | cons a tail =>
      cases tail with
      | nil => simp [get_target, h] at hcontra
      | cons b l =>
        have hsub : List.Sublist (matchingTargets reg m F)
            (get_all_targets reg) := List.filter_sublist _
        have hpf := hp.sublist hsub
        rw [h] at hpf
        have hab := (List.pairwise_cons.1 hpf).1 b (by simp)
        have ha : a ∈ matchingTargets reg m F := by rw [h]; simp
        have hb : b ∈ matchingTargets reg m F := by rw [h]; simp
        rw [matchingTargets, List.mem_filter] at ha hb
        have hpa := of_decide_eq_true ha.2
        have hpb := of_decide_eq_true hb.2
        exact hab (by
          simp [entryIdentity, hpa.1, hpb.1, ← hpa.2, ← hpb.2])

/-- Witness for `C6_duplicate_identity`: two same-identity registrations
both land in the registry, lookup on that identity hits the fatal
assertion, and on a duplicate-free registry the assertion is not hit. -/
theorem C6_witness :
    ((registerTarget
        ((registerTarget ([] : Registry) "build" "a" TargetScope.LOCAL none
            (some {"u"})).2) "build" "b" TargetScope.LOCAL none
        (some {"u"})).2
      = [RegEntry.plain
           (mkTargetBase "build" "a" TargetScope.LOCAL none (some {"u"})),
         RegEntry.plain
           (mkTargetBase "build" "b" TargetScope.LOCAL none (some {"u"}))]) ∧
    get_target
      ((registerTarget
          ((registerTarget ([] : Registry) "build" "a" TargetScope.LOCAL none
              (some {"u"})).2) "build" "b" TargetScope.LOCAL none
          (some {"u"})).2) "build" {"u"}
      = LookupResult.assertFailed "Conflicting targets specified in code" ∧
    get_target
      [RegEntry.plain
        (mkTargetBase "build" "a" TargetScope.LOCAL none (some {"u"}))]
      "x" ∅
      ≠ LookupResult.assertFailed "Conflicting targets specified in code" := by
  refine ⟨?_, ?_, ?_⟩
  · exact (C6_duplicate_identity.1 [] "build" "a" "b" TargetScope.LOCAL
      TargetScope.LOCAL none none {"u"} (by decide) (by decide)).1
  · exact C6_duplicate_identity.2.1 _ "build" {"u"}
      (RegEntry.plain
        (mkTargetBase "build" "a" TargetScope.LOCAL none (some {"u"})))
      (RegEntry.plain
        (mkTargetBase "build" "b" TargetScope.LOCAL none (some {"u"})))
      [] (by decide)
  · exact C6_duplicate_identity.2.2
      [RegEntry.plain
        (mkTargetBase "build" "a" TargetScope.LOCAL none (some {"u"}))]
      "x" ∅ (List.pairwise_singleton _ _) "Conflicting targets specified in code"

end FPrimeTarget

namespace FPrimeTarget

/-- The invariant of claim C7: every registered target's scope is LOCAL or
GLOBAL — never BOTH. -/
def RegInv (reg : Registry) : Prop :=
  ∀ e ∈ reg,
    e.base.scope = TargetScope.LOCAL ∨ e.base.scope = TargetScope.GLOBAL

/-- Overwrite the scope field of an entry's target, as the assignment
`self.delegate.scope = self.scope` does (target.py line 215). -/
def setScopeEntry (s : TargetScope) : RegEntry → RegEntry
  | .plain t => .plain {t with scope := s}
  | .delegator t d => .delegator {t with scope := s} d

/-- Overwrite the scope of the i-th registered target, modelling the
delegator's transient scope assignment when its delegate happens to be a
registered target. -/
def setScope : Registry → Nat → TargetScope → Registry
  | [], _, _ => []
  | e :: rest, 0, s => setScopeEntry s e :: rest
  | e :: rest, n + 1, s => e :: setScope rest n s

/-- Helper: overwriting a scope field writes exactly the given scope. -/
theorem setScopeEntry_scope (s : TargetScope) (e : RegEntry) :
    (setScopeEntry s e).base.scope = s := by
  cases e <;> rfl

/-- The claim: no registered target ever carries scope BOTH — the empty
registry satisfies this, every construction (including the BOTH-scope
delegator synthesis) preserves it, the transient scope overwrite preserves
it whenever the written scope is not BOTH, and the scope of any registered
target (in particular of a registered delegator, whose scope is what the
swap writes) is never BOTH. -/
theorem C7_no_runtime_both :
    RegInv ([] : Registry) ∧
    (∀ (reg : Registry) (m d : String) (s : TargetScope)
        (bt : Option BuildType) (F : Option (Finset String)),
      RegInv reg → RegInv (registerTarget reg m d s bt F).2) ∧
    (∀ (reg : Registry) (i : Nat) (s : TargetScope),
      s ≠ TargetScope.BOTH → RegInv reg → RegInv (setScope reg i s)) ∧
    (∀ (reg : Registry) (e : RegEntry), RegInv reg → e ∈ reg →
      e.base.scope ≠ TargetScope.BOTH) := by
  refine ⟨?_, ?_, ?_, ?_⟩
  · intro e he
    cases he
  · intro reg m d s bt F hinv
    by_cases h : s = TargetScope.BOTH
    · intro e he
      simp only [registerTarget, h, ne_eq, not_true_eq_false, if_false] at he
      rw [List.mem_append] at he
      rcases he with he | he
      · exact hinv e he
      · simp only [List.mem_cons, List.not_mem_nil, or_false] at he
        rcases he with rfl | rfl
        · left; rfl
        · right; rfl
    · intro e he
      simp only [registerTarget, if_pos h] at he
      rw [List.mem_append] at he
      rcases he with he | he
      · exact hinv e he
      · simp only [List.mem_cons, List.not_mem_nil, or_false] at he
        subst he
        cases s with
        | GLOBAL => right; rfl
        | LOCAL => left; rfl
        | BOTH => exact absurd rfl h
  · intro reg
    induction reg with
    | nil => intro i s _ _; intro e he; cases he
    | cons hd tl ih =>
      intro i s hs hinv
      cases i with
      | zero =>
        intro e he
        simp only [setScope, List.mem_cons] at he
        rcases he with rfl | he
        · rw [setScopeEntry_scope]
          cases s with
          | GLOBAL => right; rfl
          | LOCAL => left; rfl
          | BOTH => exact absurd rfl hs
        · exact hinv e (List.mem_cons_of_mem hd he)
      | succ n =>
        intro e he
        simp only [setScope, List.mem_cons] at he
        rcases he with rfl | he
        · exact hinv e (List.mem_cons_self e tl)
        · exact ih n s hs (fun x hx => hinv x (List.mem_cons_of_mem hd hx))
            e he
  · intro reg e hinv he
    rcases hinv e he with h | h <;> rw [h] <;> decide

/-- Witness for `C7_no_runtime_both`: the registry produced by a BOTH-scope
construction satisfies the invariant, and so does its state after the
transient scope overwrite performed by a registered (GLOBAL) delegator. -/
theorem C7_witness :
    RegInv ((registerTarget [] "build" "d" TargetScope.BOTH none
      (some {"unit"})).2) ∧
    RegInv (setScope ((registerTarget [] "build" "d" TargetScope.BOTH none
      (some {"unit"})).2) 0 TargetScope.GLOBAL) := by
  have h1 := C7_no_runtime_both.2.1 [] "build" "d" TargetScope.BOTH none
    (some {"unit"}) C7_no_runtime_both.1
  exact ⟨h1, C7_no_runtime_both.2.2.1 _ 0 TargetScope.GLOBAL (by decide) h1⟩

/-- Helper: membership in the left fold of flag-set unions. -/
theorem mem_foldl_union (x : String) :
    ∀ (reg : Registry) (init : Finset String),
      (x ∈ reg.foldl (fun agg item => agg ∪ item.base.flags) init ↔
        x ∈ init ∨ ∃ e ∈ reg, x ∈ e.base.flags) := by
  intro reg
  induction reg with
  | nil => intro init; simp
  | cons hd tl ih =>
    intro init
    rw [List.foldl_cons, ih]
    simp only [Finset.mem_union, List.mem_cons]
    constructor
    · rintro (⟨hx | hx⟩ | ⟨e, he, hx⟩)
      · exact Or.inl hx
      · exact Or.inr ⟨hd, Or.inl rfl, hx⟩
      · exact Or.inr ⟨e, Or.inr he, hx⟩
    · rintro (hx | ⟨e, rfl | he, hx⟩)
      · exact Or.inl (Or.inl hx)
      · exact Or.inl (Or.inr hx)
      · exact Or.inr ⟨e, he, hx⟩

/-- Helper: `get_all_possible_flags` membership is membership in some
registered target's flags. -/
theorem mem_get_all_possible_flags (reg : Registry) (x : String) :
    x ∈ get_all_possible_flags reg ↔ ∃ e ∈ reg, x ∈ e.base.flags := by
  rw [get_all_possible_flags, get_all_targets, mem_foldl_union]
  simp

/-- Helper: registration only appends, so membership in the registry is
preserved. -/
theorem mem_registerTarget_of_mem (reg : Registry) (m d : String)
    (s : TargetScope) (bt : Option BuildType) (F : Option (Finset String))
    (e : RegEntry) (he : e ∈ reg) :
    e ∈ (registerTarget reg m d s bt F).2 := by
  by_cases h : s = TargetScope.BOTH <;>
    simp [registerTarget, h, List.mem_append, he]

/-- Helper: the flag union never shrinks under registration. -/
theorem get_all_possible_flags_mono (reg : Registry) (m d : String)
    (s : TargetScope) (bt : Option BuildType)
    (F : Option (Finset String)) :
    get_all_possible_flags reg
      ⊆ get_all_possible_flags (registerTarget reg m d s bt F).2 := by
  intro x hx
  rw [mem_get_all_possible_flags] at hx ⊢
  obtain ⟨e, he, hxe⟩ := hx
  exact ⟨e, mem_registerTarget_of_mem reg m d s bt F e he, hxe⟩

/-- The claim: `get_all_possible_flags` is the union of all registered
targets' flag sets; the registry is append-only so the union is monotone
under registration, and registering a target with a novel flag strictly
grows the union. -/
theorem C8_flag_union (reg : Registry) :
    (∀ x, x ∈ get_all_possible_flags reg ↔
      ∃ e ∈ get_all_targets reg, x ∈ e.base.flags) ∧
    (∀ (m d : String) (s : TargetScope) (bt : Option BuildType)
        (F : Option (Finset String)),
      get_all_possible_flags reg
        ⊆ get_all_possible_flags (registerTarget reg m d s bt F).2) ∧
    (∀ (m d : String) (s : TargetScope) (bt : Option BuildType)
        (F : Finset String) (x : String),
      x ∈ F → x ∉ get_all_possible_flags reg →
      x ∈ get_all_possible_flags
          (registerTarget reg m d s bt (some F)).2 ∧
      get_all_possible_flags reg
        ⊂ get_all_possible_flags (registerTarget reg m d s bt (some F)).2) := by
  refine ⟨?_, ?_, ?_⟩
  · intro x
    rw [mem_get_all_possible_flags, get_all_targets]
  · intro m d s bt F
    exact get_all_possible_flags_mono reg m d s bt F
  · intro m d s bt F x hxF hxold
    have hxnew : x ∈ get_all_possible_flags
        (registerTarget reg m d s bt (some F)).2 := by
      rw [mem_get_all_possible_flags]
      by_cases h : s = TargetScope.BOTH
      · refine ⟨RegEntry.delegator
          (mkTargetBase m d TargetScope.LOCAL bt (some F))
          (mkTargetBase m d s bt (some F)), ?_, ?_⟩
        · simp [registerTarget, h, List.mem_append]
        · simpa [mkTargetBase, RegEntry.base] using hxF
      · refine ⟨RegEntry.plain (mkTargetBase m d s bt (some F)), ?_, ?_⟩
        · simp [registerTarget, h, List.mem_append]
        · simpa [mkTargetBase, RegEntry.base] using hxF
    refine ⟨hxnew, ?_⟩
    exact (Finset.ssubset_iff_of_subset
      (get_all_possible_flags_mono reg m d s bt (some F))).2
      ⟨x, hxnew, hxold⟩

/-- Witness for `C8_flag_union`: registering `("build", {"jobs"})` into the
empty registry puts the novel flag `"jobs"` into the union. -/
theorem C8_witness :
    "jobs" ∈ get_all_possible_flags
      ((registerTarget [] "build" "d" TargetScope.LOCAL none
        (some {"jobs"})).2) ∧
    get_all_possible_flags ([] : Registry)
      ⊂ get_all_possible_flags
        ((registerTarget [] "build" "d" TargetScope.LOCAL none
          (some {"jobs"})).2) :=
  (C8_flag_union []).2.2 "build" "d" TargetScope.LOCAL none {"jobs"} "jobs"
    (by decide) (by decide)

end FPrimeTarget

namespace FPrimeTarget

/-- Helper: the first element's length bounds the length of a
space-join. -/
theorem joinSpace_cons_length (s : String) (l : List String) :
    s.length ≤ (joinSpace (s :: l)).length := by
  cases l with
  | nil => simp [joinSpace]
  | cons b l' =>
    show s.length ≤ (s ++ " " ++ joinSpace (b :: l')).length
    simp [String.length_append]
    omega

/-- Helper: a space-join whose first element starts with `"--"` is
non-empty, so `config_string` inserts the separating space. -/
theorem joinSpace_dashdash_ne_empty (f : String) (l : List String) :
    joinSpace (("--" ++ f) :: l) ≠ "" := by
  intro h
  have h1 := joinSpace_cons_length ("--" ++ f) l
  rw [h] at h1
  rw [String.length_append] at h1
  have h2 : ("" : String).length = 0 := rfl
  have h3 : ("--" : String).length = 2 := rfl
  rw [h2, h3] at h1
  omega

/-- The claim: the display string is the mnemonic followed by each flag
rendered `--flag`, space-separated; with flag `"jobs"` it is
`"build --jobs"`, and with no flags it is exactly the mnemonic with no
trailing space. -/
theorem C9_display_string :
    config_string "build" ["jobs"] = "build --jobs" ∧
    (∀ m : String, config_string m [] = m) ∧
    (∀ (m f : String) (fs : List String),
      config_string m (f :: fs)
        = m ++ " " ++ joinSpace ((f :: fs).map (fun g => "--" ++ g))) := by
  refine ⟨by decide, ?_, ?_⟩
  · intro m
    show m ++ "" = m
    exact String.append_empty m
  · intro m f fs
    simp only [config_string, List.map_cons]
    rw [if_neg (joinSpace_dashdash_ne_empty f
      (List.map (fun g => "--" ++ g) fs))]
    rw [← String.append_assoc]

end FPrimeTarget

namespace FPrimeTarget

/-- The code evaluated at the failing input of claim C1: constructing a
BOTH-scope target `("build", {"unit"})` registers exactly two delegators —
LOCAL with flags `{"unit"}` and GLOBAL with flags `{"unit", "-all"}` — both
delegating to the unregistered original instance, which itself is not
appended; but the extra GLOBAL flag is the string `"-all"`, not `"all"` as
the claim (and the module's own docstrings, which promise a rendered
`"--all"`) state, so the identity `("build", {"unit", "all"})` is not
reachable by lookup while `("build", {"unit", "-all"})` is. -/
theorem C1_both_scope_synthesis_eval :
    (registerTarget [] "build" "d" TargetScope.BOTH none (some {"unit"})).2
      = [RegEntry.delegator
           (mkTargetBase "build" "d" TargetScope.LOCAL none (some {"unit"}))
           (mkTargetBase "build" "d" TargetScope.BOTH none (some {"unit"})),
         RegEntry.delegator
           (mkTargetBase "build" "d" TargetScope.GLOBAL none
             (some {"unit", "-all"}))
           (mkTargetBase "build" "d" TargetScope.BOTH none
             (some {"unit"}))] ∧
    "all" ∉ get_all_possible_flags
      ((registerTarget [] "build" "d" TargetScope.BOTH none
        (some {"unit"})).2) ∧
    "-all" ∈ get_all_possible_flags
      ((registerTarget [] "build" "d" TargetScope.BOTH none
        (some {"unit"})).2) ∧
    (get_target ((registerTarget [] "build" "d" TargetScope.BOTH none
        (some {"unit"})).2) "build" {"unit", "all"}).isNoSuch = true ∧
    get_target ((registerTarget [] "build" "d" TargetScope.BOTH none
        (some {"unit"})).2) "build" {"unit", "-all"}
      = LookupResult.found
          (RegEntry.delegator
            (mkTargetBase "build" "d" TargetScope.GLOBAL none
              (some {"unit", "-all"}))
            (mkTargetBase "build" "d" TargetScope.BOTH none
              (some {"unit"}))) ∧
    get_target ((registerTarget [] "build" "d" TargetScope.BOTH none
        (some {"unit"})).2) "build" {"unit"}
      = LookupResult.found
          (RegEntry.delegator
            (mkTargetBase "build" "d" TargetScope.LOCAL none
              (some {"unit"}))
            (mkTargetBase "build" "d" TargetScope.BOTH none
              (some {"unit"}))) := by
  have hglobal : globalFlags (some {"unit"}) = {"unit", "-all"} := by
    rw [globalFlags]
    rw [if_neg (Finset.singleton_ne_empty "unit")]
    ext x
    simp only [Finset.mem_union, Finset.mem_insert, Finset.mem_singleton]
    tauto
  have hreg : (registerTarget [] "build" "d" TargetScope.BOTH none
      (some {"unit"})).2
      = [RegEntry.delegator
           (mkTargetBase "build" "d" TargetScope.LOCAL none (some {"unit"}))
           (mkTargetBase "build" "d" TargetScope.BOTH none (some {"unit"})),
         RegEntry.delegator
           (mkTargetBase "build" "d" TargetScope.GLOBAL none
             (some {"unit", "-all"}))
           (mkTargetBase "build" "d" TargetScope.BOTH none
             (some {"unit"}))] := by
    rw [← hglobal]
    rfl
  refine ⟨hreg, ?_, ?_, ?_, ?_, ?_⟩ <;> rw [hreg] <;> decide

end FPrimeTarget
